import Mathlib

/-!
# Verification of the ImageMagick dynamic conversion API (`src/main.py`)

Shallow embedding of the request handler `convert_image_dynamic` of
`src/main.py` together with its helper logic, and proofs about the claims of
the specification.

Modelling conventions:
* Python integers are `Nat`; every quantity involved is non-negative.
* Python float expressions of the handler are embedded as exact rational /
  natural-number arithmetic.  This is faithful for the values that can occur:
  every float expression of the translator (`int(setting / 10.0)`,
  `round(6 - (setting / 100.0) * 6)`, `int((100 - setting) * 0.09)`,
  `int(63 * (1 - quality / 100.0))`, `int(256 * (quality / 100.0))`) is, for
  integer `setting ∈ [0,100]`, a grid of rationals with denominator at most
  100 whose double-precision evaluation differs from the exact value by far
  less than the distance to the nearest truncation or rounding boundary, and
  the boundary cases themselves (multiples of .5 and exact integers) are
  exactly representable, so `int` = floor and Python `round` = round half to
  even hold of the exact rationals as well.
* `int(x)` for non-negative `x` is `Nat` floor division; Python `round` is
  round half to even (`pyRoundNat` below).
* The `asyncio` orchestration is embedded as a pure function from an
  environment (the outcomes of the external effects: the `which heif-enc`
  probe, staging the upload, spawning `magick`, the awaited process result,
  the output-file check) to a `Trace` recording the externally visible
  events: which subprocesses were spawned, whether the workspace directory
  was created, whether the handler issued a kill to the child process
  (the source contains no `process.kill()`/`terminate()` call, so this is
  `false` on every path), whether the `finally` block deleted the workspace
  synchronously (`cleanup_scheduled` is false and the directory exists),
  whether a deferred background deletion was scheduled (it runs after the
  response body is transmitted), and the HTTP response.
-/

namespace MagickAPI

/-- Constant `MAX_FILE_SIZE_MB = 200` (src/main.py line 45). -/
def MAX_FILE_SIZE_MB : Nat := 200

/-- Constant `TIMEOUT_SECONDS = 300` (src/main.py line 46). -/
def TIMEOUT_SECONDS : Nat := 300

/-- The size ceiling in bytes: the handler compares
`size / (1024*1024) > MAX_FILE_SIZE_MB` on floats (lines 210-211); for
integer byte counts this is exactly `size > MAX_FILE_SIZE_MB * 1024 * 1024`
(double division by a power of two is exact up to far beyond this range). -/
def sizeLimitBytes : Nat := MAX_FILE_SIZE_MB * 1024 * 1024

/-- Type `TargetFormat = Literal["avif", "webp", "jpeg", "png", "gif", "heif"]`. -/
inductive TargetFormat
  | avif | webp | jpeg | png | gif | heif
deriving DecidableEq, Repr

/-- The path-parameter spelling of a target format. -/
def TargetFormat.str : TargetFormat → String
  | .avif => "avif"
  | .webp => "webp"
  | .jpeg => "jpeg"
  | .png => "png"
  | .gif => "gif"
  | .heif => "heif"

/-- Type `ConversionMode = Literal["lossless", "lossy"]`. -/
inductive ConversionMode
  | lossless | lossy
deriving DecidableEq, Repr

/-- The path-parameter spelling of a conversion mode. -/
def ConversionMode.str : ConversionMode → String
  | .lossless => "lossless"
  | .lossy => "lossy"

/-- Python `str.lower()` restricted to the character-wise ASCII case fold
(the strings compared in the handler are ASCII extensions). -/
def strLower (s : String) : String := String.mk (s.data.map Char.toLower)

/-- Index of the last occurrence of `c` in `cs` (Python `str.rfind`,
`none` for `-1`). -/
def lastIdx (cs : List Char) (c : Char) : Option Nat :=
  (cs.enum.filterMap (fun p => if p.2 = c then some p.1 else none)).getLast?

/-- The extension part of `os.path.splitext` (posixpath): the suffix from the
last dot, provided that dot lies after the last `/` and at least one
character strictly between the last `/` and that dot is not itself a dot
(so `".bashrc"` has no extension). -/
def splitextExt (p : String) : String :=
  let cs := p.data
  match lastIdx cs '.' with
  | none => ""
  | some d =>
    let start := match lastIdx cs '/' with
      | none => 0
      | some k => k + 1
    if start ≤ d then
      if ((cs.take d).drop start).any (fun ch => ch != '.') then
        String.mk (cs.drop d)
      else ""
    else ""

/-- The root part of `os.path.splitext` (posixpath): everything before the
extension returned by `splitextExt`. -/
def splitextRoot (p : String) : String :=
  let cs := p.data
  match lastIdx cs '.' with
  | none => p
  | some d =>
    let start := match lastIdx cs '/' with
      | none => 0
      | some k => k + 1
    if start ≤ d then
      if ((cs.take d).drop start).any (fun ch => ch != '.') then
        String.mk (cs.take d)
      else p
    else p

/-- The set `allowed_extensions` (src/main.py line 202).  The source spells it as a
Python set; only membership is ever used, so it is embedded as a list. -/
def allowed_extensions : List String :=
  [".jpg", ".jpeg", ".png", ".gif", ".webp", ".avif", ".heif", ".heic",
   ".bmp", ".tiff", ".tif"]

/-- The list `animated_formats` (src/main.py line 243). -/
def animated_formats : List String := [".gif", ".webp", ".apng", ".png"]

/-- Python 3 `round` for a non-negative rational `num / den`: round half to
even. -/
def pyRoundNat (num den : Nat) : Nat :=
  let q := num / den
  let r := num % den
  if 2 * r < den then q
  else if den < 2 * r then q + 1
  else if q % 2 = 0 then q else q + 1

/-- Source expression `avif_speed = min(10, int(setting / 10.0))` (line 253). -/
def avif_speed (setting : Nat) : Nat := min 10 (setting / 10)

/-- Source expression `heif_speed = min(10, int(setting / 10.0))` (line 259). -/
def heif_speed (setting : Nat) : Nat := min 10 (setting / 10)

/-- Source expression `webp_method = round(6 - (setting / 100.0) * 6)` (line 267):
`6 - 6*setting/100 = (600 - 6*setting)/100` exactly. -/
def webp_method (setting : Nat) : Nat := pyRoundNat (600 - 6 * setting) 100

/-- Source expression `png_compression = min(9, int((100 - setting) * 0.09))` (line 280):
`(100-setting)*0.09 = 9*(100-setting)/100` exactly. -/
def png_compression (setting : Nat) : Nat := min 9 (9 * (100 - setting) / 100)

/-- Source expression `cq_level = max(0, min(63, int(63 * (1 - quality / 100.0))))` (line 298):
`63*(1 - quality/100) = 63*(100-quality)/100` exactly. -/
def cq_level (quality : Nat) : Nat :=
  max 0 (min 63 (63 * (100 - quality) / 100))

/-- Source expression `colors = max(2, int(256 * (quality / 100.0)))` (lines 316 and 321). -/
def colors (quality : Nat) : Nat := max 2 (256 * quality / 100)

/-- The per-format, per-mode flags appended to the command by the
`if mode == "lossless"` / `elif mode == "lossy"` ladder (lines 248-323). -/
def fmtFlags (target_format : TargetFormat) (mode : ConversionMode)
    (setting : Nat) : List String :=
  match mode, target_format with
  | .lossless, .avif =>
      ["-define", "avif:lossless=true",
       "-define", "avif:speed=" ++ toString (avif_speed setting)]
  | .lossless, .heif =>
      ["-define", "heif:lossless=true",
       "-define", "heif:speed=" ++ toString (heif_speed setting)]
  | .lossless, .webp =>
      ["-define", "webp:lossless=true",
       "-define", "webp:method=" ++ toString (webp_method setting),
       "-quality", "100"]
  | .lossless, .jpeg => ["-quality", "100"]
  | .lossless, .png =>
      ["-quality", toString (91 + png_compression setting)]
  | .lossless, .gif => ["-layers", "optimize"]
  | .lossy, .avif =>
      ["-define", "avif:cq-level=" ++ toString (cq_level setting),
       "-define", "avif:speed=4"]
  | .lossy, .heif => ["-quality", toString setting]
  | .lossy, .webp =>
      ["-quality", toString setting, "-define", "webp:method=4"]
  | .lossy, .jpeg => ["-quality", toString setting]
  | .lossy, .png => ["-colors", toString (colors setting), "+dither"]
  | .lossy, .gif =>
      ["-colors", toString (colors setting), "+dither",
       "-layers", "optimize"]

/-- The coalescing condition (line 244):
`file_extension.lower() in animated_formats or target_format in ['gif', 'webp']`. -/
def coalesceNeeded (file_extension : String) (target_format : TargetFormat) :
    Bool :=
  decide (strLower file_extension ∈ animated_formats)
    || decide (target_format = .gif) || decide (target_format = .webp)

/-- The full `magick` argument vector (lines 238-327):
`['magick', input_path]`, then `-coalesce` when `coalesceNeeded`, then the
per-format flags, then the output path. -/
def buildCmd (input_path output_path file_extension : String)
    (target_format : TargetFormat) (mode : ConversionMode) (setting : Nat) :
    List String :=
  ["magick", input_path]
    ++ (if coalesceNeeded file_extension target_format then ["-coalesce"] else [])
    ++ fmtFlags target_format mode setting
    ++ [output_path]

/-- Python slice `s[:n]` on a decoded string, by characters. -/
def takeChars (n : Nat) (s : String) : String := String.mk (s.data.take n)

/-- Outcome of awaiting `process.communicate()` under `asyncio.wait_for`:
either the process finished with an exit code and captured stderr text, or
the timeout expired (`asyncio.TimeoutError`). -/
inductive EncOutcome
  | finished (exitCode : Nat) (stderrText : String)
  | timedOut
deriving DecidableEq, Repr

/-- Environment of one request: the results of the handler's external
effects, fixed up front so the handler becomes a pure function. -/
structure Env where
  /-- Whether `which heif-enc` exits 0. -/
  heifAvailable : Bool
  /-- spawning/awaiting the probe itself raises. -/
  probeRaises : Bool
  /-- saving the upload to `input_path` raises (filesystem error). -/
  stagingRaises : Bool
  /-- Whether `create_subprocess_exec` for `magick` raises. -/
  spawnRaises : Bool
  /-- result of awaiting the `magick` process under the timeout. -/
  encOutcome : EncOutcome
  /-- Value of `os.path.exists(output_path)` after the process finished. -/
  outputExists : Bool
  /-- Text `str(e)` of an unexpected exception, used in the generic 500 detail. -/
  errText : String
deriving DecidableEq, Repr

/-- The upload: its client-supplied filename (`""` for a missing filename,
Python falsy) and its size in bytes. -/
structure UploadReq where
  filename : String
  sizeBytes : Nat
deriving DecidableEq, Repr

/-- The HTTP outcome: a `FileResponse` or a raised `HTTPException`. -/
inductive Response
  | ok (path mediaType downloadName : String)
  | err (status : Nat) (detail : String)
deriving DecidableEq, Repr

/-- Returns `true` exactly on the success response. -/
def Response.isOk : Response → Bool
  | .ok _ _ _ => true
  | .err _ _ => false

/-- Externally visible events of one request. -/
structure Trace where
  /-- a `which heif-enc` child process was started. -/
  probeSpawned : Bool
  /-- the workspace directory `temp_dir` was created (line 221). -/
  wsCreated : Bool
  /-- the argument vector of the `magick` child process, when one was
  started (line 332); `none` when no encoder process was spawned. -/
  spawnedCmd : Option (List String)
  /-- the handler killed/terminated the child process.  The source has no
  such call: `asyncio.wait_for` merely cancels the `communicate()` await,
  so this is `false` on every path. -/
  killIssued : Bool
  /-- the `finally` block (lines 384-389) deleted the workspace
  synchronously, before the response was emitted. -/
  syncCleanup : Bool
  /-- Whether `background_tasks.add_task(cleanup_temp_dir, temp_dir)` was registered
  (line 365); FastAPI runs it after the response body is transmitted. -/
  deferredCleanup : Bool
  response : Response
deriving DecidableEq, Repr

/-- Every error exit: the response is the raised `HTTPException`, and the
`finally` block deletes the workspace iff it was created (on error paths
`cleanup_scheduled` is still `False`). -/
def errTrace (probeSpawned wsCreated : Bool)
    (spawnedCmd : Option (List String)) (status : Nat) (detail : String) :
    Trace :=
  { probeSpawned := probeSpawned, wsCreated := wsCreated,
    spawnedCmd := spawnedCmd, killIssued := false,
    syncCleanup := wsCreated, deferredCleanup := false,
    response := .err status detail }

/-- The part of the handler from workspace creation on (lines 218-389):
staging, command construction, execution, result checks, response,
`finally` cleanup. -/
def runConversion (env : Env) (target_format : TargetFormat)
    (mode : ConversionMode) (setting : Nat) (req : UploadReq)
    (temp_dir : String) (probeSpawned : Bool) : Trace :=
  let file_extension := splitextExt req.filename
  let input_path := temp_dir ++ "/input" ++ file_extension
  let output_path := temp_dir ++ "/output." ++ target_format.str
  if env.stagingRaises then
    errTrace probeSpawned true none 500
      ("An unexpected server error occurred: " ++ env.errText)
  else
    let cmd := buildCmd input_path output_path file_extension
      target_format mode setting
    if env.spawnRaises then
      errTrace probeSpawned true none 500
        ("An unexpected server error occurred: " ++ env.errText)
    else
      match env.encOutcome with
      | .timedOut =>
          errTrace probeSpawned true (some cmd) 504
            ("Conversion timed out after " ++ toString TIMEOUT_SECONDS
              ++ " seconds.")
      | .finished exitCode stderrText =>
          if exitCode ≠ 0 then
            errTrace probeSpawned true (some cmd) 500
              ("Magick failed: " ++ takeChars 1000 stderrText)
          else if !env.outputExists then
            errTrace probeSpawned true (some cmd) 500
              "Magick 命令成功执行，但未找到输出文件。"
          else
            let original_filename_base := splitextRoot req.filename
            let download_filename := original_filename_base ++ "_" ++ mode.str
              ++ "_" ++ toString setting ++ "." ++ target_format.str
            let media_type :=
              if target_format = .heif then "image/heif"
              else "image/" ++ target_format.str
            { probeSpawned := probeSpawned, wsCreated := true,
              spawnedCmd := some cmd, killIssued := false,
              syncCleanup := false, deferredCleanup := true,
              response := .ok output_path media_type download_filename }

/-- Input validation (lines 197-216) followed by the conversion. -/
def validateAndRun (env : Env) (target_format : TargetFormat)
    (mode : ConversionMode) (setting : Nat) (req : UploadReq)
    (temp_dir : String) (probeSpawned : Bool) : Trace :=
  if req.filename = "" then
    errTrace probeSpawned false none 400 "Filename is required."
  else
    let file_ext := strLower (splitextExt req.filename)
    if file_ext ∉ allowed_extensions then
      errTrace probeSpawned false none 400
        ("Unsupported file format: " ++ file_ext ++ ". Allowed formats: "
          ++ String.intercalate ", " allowed_extensions)
    else if sizeLimitBytes < req.sizeBytes then
      errTrace probeSpawned false none 400
        ("File too large. Max size is " ++ toString MAX_FILE_SIZE_MB ++ "MB.")
    else
      runConversion env target_format mode setting req temp_dir probeSpawned

/-- The request handler `convert_image_dynamic` (lines 158-389), as a pure
function of the request and the environment.  The avif/heif dependency
pre-check (lines 177-195) runs before any validation; note that when
`heif-enc` is absent the `HTTPException` raised inside the `try` is itself
caught by the blanket `except Exception`, so both probe failure modes
surface the same 503 detail. -/
def convert_image_dynamic (env : Env) (target_format : TargetFormat)
    (mode : ConversionMode) (setting : Nat) (req : UploadReq)
    (temp_dir : String) : Trace :=
  if target_format = .avif ∨ target_format = .heif then
    if env.probeRaises then
      errTrace false false none 503
        "Unable to verify AVIF/HEIF encoder availability."
    else if !env.heifAvailable then
      errTrace true false none 503
        "Unable to verify AVIF/HEIF encoder availability."
    else
      validateAndRun env target_format mode setting req temp_dir true
  else
    validateAndRun env target_format mode setting req temp_dir false

/-- The avif/heif dependency pre-check does not abort the request: either the
format needs no probe, or the probe succeeds and reports `heif-enc` present. -/
def depOk (env : Env) (target_format : TargetFormat) : Prop :=
  (target_format = .avif ∨ target_format = .heif) →
    (env.probeRaises = false ∧ env.heifAvailable = true)

/-- The request fails input validation: missing/empty filename, extension
outside the allow-list, or size over the ceiling. -/
def validationFails (req : UploadReq) : Prop :=
  req.filename = ""
    ∨ strLower (splitextExt req.filename) ∉ allowed_extensions
    ∨ sizeLimitBytes < req.sizeBytes

/-- The request passes the pre-check and validation and reaches process
execution without a staging or spawn exception. -/
def reachesExec (env : Env) (target_format : TargetFormat) (req : UploadReq) :
    Prop :=
  depOk env target_format
    ∧ req.filename ≠ ""
    ∧ strLower (splitextExt req.filename) ∈ allowed_extensions
    ∧ req.sizeBytes ≤ sizeLimitBytes
    ∧ env.stagingRaises = false ∧ env.spawnRaises = false

/-! ## Spec-side definitions

These transcribe formulae from the specification text (for refinement-style
comparison with the source-side definitions above). -/

/-- Round half to even on the rationals, the rounding convention of
Python 3's `round` (spec §4.1 allows half-to-even or half-up). -/
def roundHalfEven (x : ℚ) : ℤ :=
  if x - ⌊x⌋ = 1 / 2 then (if ⌊x⌋ % 2 = 0 then ⌊x⌋ else ⌊x⌋ + 1)
  else round x

/-- The claim C1 formula verbatim:
`clamp(round(63*(1-setting/100)), 0, 63)` (with `round` as in Mathlib,
round half up; any standard rounding gives the same value at the
counterexample below). -/
def cqClaim (setting : Nat) : ℤ :=
  max 0 (min 63 (round ((63 : ℚ) * (1 - (setting : ℚ) / 100))))

/-! ## Arithmetic bridge lemmas -/

/-- Floor of a quotient of naturals in `ℚ` is natural-number division. -/
theorem floorQ_nat_div (a b : ℕ) :
    ⌊(a : ℚ) / (b : ℚ)⌋ = ((a / b : ℕ) : ℤ) := by
  rw [Rat.floor_natCast_div_natCast a b]
  norm_cast


/-- Function `pyRoundNat` agrees with round half to even on the corresponding
rational. -/
theorem pyRoundNat_eq_roundHalfEven (num den : ℕ) (hden : 0 < den) :
    (pyRoundNat num den : ℤ) = roundHalfEven ((num : ℚ) / (den : ℚ)) := by
  have hdenQ : ((den : ℚ)) ≠ 0 := by positivity
  have hmod : den * (num / den) + num % den = num := Nat.div_add_mod num den
  have hrd : num % den < den := Nat.mod_lt _ hden
  have hcast : ((num : ℕ) : ℚ) = ((num / den : ℕ) : ℚ) * den + ((num % den : ℕ) : ℚ) := by
    conv_lhs => rw [← hmod]
    push_cast
    ring
  have hfrac : (num : ℚ) / den
      = ((num / den : ℕ) : ℚ) + ((num % den : ℕ) : ℚ) / den := by
    rw [hcast]
    field_simp
  have hfl : ⌊(num : ℚ) / den⌋ = ((num / den : ℕ) : ℤ) := floorQ_nat_div num den
  have hfr : (num : ℚ) / den - ((⌊(num : ℚ) / den⌋ : ℤ) : ℚ)
      = ((num % den : ℕ) : ℚ) / den := by
    rw [hfl, Int.cast_natCast, hfrac]
    ring
  have halfIff : ((num : ℚ) / den - ((⌊(num : ℚ) / den⌋ : ℤ) : ℚ) = 1 / 2)
      ↔ 2 * (num % den) = den := by
    rw [hfr, div_eq_iff hdenQ]
    constructor
    · intro h
      have h2 : ((2 * (num % den) : ℕ) : ℚ) = ((den : ℕ) : ℚ) := by
        push_cast
        linarith
      exact_mod_cast h2
    · intro h
      have h2 : ((2 * (num % den) : ℕ) : ℚ) = ((den : ℕ) : ℚ) := by
        exact_mod_cast h
      push_cast at h2
      linarith
  have hround : round ((num : ℚ) / den) = (((2 * num + den) / (2 * den) : ℕ) : ℤ) := by
    rw [round_eq]
    have hq : (num : ℚ) / den + 1 / 2
        = ((2 * num + den : ℕ) : ℚ) / ((2 * den : ℕ) : ℚ) := by
      push_cast
      field_simp
      ring
    rw [hq, floorQ_nat_div]
  rcases lt_trichotomy (2 * (num % den)) den with hlt | heq | hgt
  · -- fractional part below one half: both sides are the floor
    have hne : ¬ ((num : ℚ) / den - ((⌊(num : ℚ) / den⌋ : ℤ) : ℚ) = 1 / 2) :=
      fun h => by have := halfIff.mp h; omega
    have hdiv : (2 * num + den) / (2 * den) = num / den := by
      apply Nat.div_eq_of_lt_le
      · calc num / den * (2 * den) = 2 * (den * (num / den)) := by ring
          _ ≤ 2 * num := by omega
          _ ≤ 2 * num + den := Nat.le_add_right _ _
      · calc 2 * num + den = 2 * (den * (num / den) + num % den) + den := by rw [hmod]
          _ = num / den * (2 * den) + (2 * (num % den) + den) := by ring
          _ < num / den * (2 * den) + (den + den) := by omega
          _ = (num / den + 1) * (2 * den) := by ring
    have hpy : pyRoundNat num den = num / den := by
      unfold pyRoundNat
      simp [hlt]
    rw [hpy]
    unfold roundHalfEven
    rw [if_neg hne, hround, hdiv]
  · -- fractional part exactly one half: tie-break to even
    have hhalf := halfIff.mpr heq
    have hpy : pyRoundNat num den
        = (if num / den % 2 = 0 then num / den else num / den + 1) := by
      unfold pyRoundNat
      simp [show ¬ 2 * (num % den) < den by omega, show ¬ den < 2 * (num % den) by omega]
    rw [hpy]
    unfold roundHalfEven
    rw [if_pos hhalf, hfl]
    by_cases hpar : num / den % 2 = 0
    · rw [if_pos hpar, if_pos (by omega : ((num / den : ℕ) : ℤ) % 2 = 0)]
    · rw [if_neg hpar, if_neg (by omega : ¬ ((num / den : ℕ) : ℤ) % 2 = 0)]
      push_cast
      ring
  · -- fractional part above one half: both sides round up
    have hne : ¬ ((num : ℚ) / den - ((⌊(num : ℚ) / den⌋ : ℤ) : ℚ) = 1 / 2) :=
      fun h => by have := halfIff.mp h; omega
    have hdiv : (2 * num + den) / (2 * den) = num / den + 1 := by
      apply Nat.div_eq_of_lt_le
      · calc (num / den + 1) * (2 * den) = 2 * (den * (num / den)) + 2 * den := by ring
          _ ≤ 2 * (den * (num / den)) + (2 * (num % den) + den) := by omega
          _ = 2 * (den * (num / den) + num % den) + den := by ring
          _ = 2 * num + den := by rw [hmod]
      · calc 2 * num + den = 2 * (den * (num / den) + num % den) + den := by rw [hmod]
          _ = 2 * (den * (num / den)) + (2 * (num % den) + den) := by ring
          _ < 2 * (den * (num / den)) + 2 * (2 * den) := by omega
          _ ≤ (num / den + 1 + 1) * (2 * den) := by nlinarith [Nat.zero_le (den * (num / den))]
    have hpy : pyRoundNat num den = num / den + 1 := by
      unfold pyRoundNat
      simp [show ¬ 2 * (num % den) < den by omega, hgt]
    rw [hpy]
    unfold roundHalfEven
    rw [if_neg hne, hround, hdiv]

/-! ## String and bound helper lemmas -/

/-- Two strings whose first characters differ are distinct, even after
appending to the first. -/
theorem append_ne_of_head {c d : Char} {l m : List Char} (p x q : String)
    (hp : p.data = c :: l) (hq : q.data = d :: m) (hcd : c ≠ d) :
    p ++ x ≠ q := by
  intro h
  have h2 := congrArg String.data h
  rw [String.data_append, hp, hq, List.cons_append] at h2
  injection h2 with h3 _
  exact hcd h3

set_option maxRecDepth 4000 in
/-- The decimal spelling of a small natural number is never the literal
`"-coalesce"`. -/
theorem toString_nat_ne_coalesce (n : ℕ) (hn : n ≤ 256) :
    toString n ≠ "-coalesce" := by
  have h : ∀ i : Fin 257, toString i.val ≠ "-coalesce" := by decide
  exact h ⟨n, by omega⟩

/-- Value `colors` stays within the documented palette range (upper end). -/
theorem colors_le (s : ℕ) (hs : s ≤ 100) : colors s ≤ 256 := by
  unfold colors
  omega

/-- Value `colors` stays within the documented palette range (lower end). -/
theorem two_le_colors (s : ℕ) : 2 ≤ colors s := le_max_left _ _

/-- Value `png_compression` is a 0-9 compression level. -/
theorem png_compression_le (s : ℕ) : png_compression s ≤ 9 := min_le_left _ _

/-- Value `cq_level` never exceeds 63. -/
theorem cq_level_le (s : ℕ) : cq_level s ≤ 63 := by
  unfold cq_level
  omega

/-- The per-format flag list never contains the coalescing step: the only
occurrence of `-coalesce` in a command comes from the animation test. -/
theorem coalesce_not_mem_fmtFlags (tf : TargetFormat) (m : ConversionMode)
    (s : ℕ) (hs : s ≤ 100) : "-coalesce" ∉ fmtFlags tf m s := by
  have hts : ∀ n : ℕ, n ≤ 256 → ¬ (("-coalesce" : String) = toString n) :=
    fun n hn h => toString_nat_ne_coalesce n hn h.symm
  cases tf <;> cases m <;> intro hmem <;>
    simp only [fmtFlags, List.mem_cons, List.not_mem_nil, or_false] at hmem
  · rcases hmem with h | h | h | h
    · exact absurd h (by decide)
    · exact absurd h (by decide)
    · exact absurd h (by decide)
    · exact append_ne_of_head _ _ _ rfl rfl (by decide) h.symm
  · rcases hmem with h | h | h | h
    · exact absurd h (by decide)
    · exact append_ne_of_head _ _ _ rfl rfl (by decide) h.symm
    · exact absurd h (by decide)
    · exact absurd h (by decide)
  · rcases hmem with h | h | h | h | h | h
    · exact absurd h (by decide)
    · exact absurd h (by decide)
    · exact absurd h (by decide)
    · exact append_ne_of_head _ _ _ rfl rfl (by decide) h.symm
    · exact absurd h (by decide)
    · exact absurd h (by decide)
  · rcases hmem with h | h | h | h
    · exact absurd h (by decide)
    · exact hts s (by omega) h
    · exact absurd h (by decide)
    · exact absurd h (by decide)
  · rcases hmem with h | h
    · exact absurd h (by decide)
    · exact absurd h (by decide)
  · rcases hmem with h | h
    · exact absurd h (by decide)
    · exact hts s (by omega) h
  · rcases hmem with h | h
    · exact absurd h (by decide)
    · exact hts (91 + png_compression s) (by have := png_compression_le s; omega) h
  · rcases hmem with h | h | h
    · exact absurd h (by decide)
    · exact hts (colors s) (by have := colors_le s hs; omega) h
    · exact absurd h (by decide)
  · rcases hmem with h | h
    · exact absurd h (by decide)
    · exact absurd h (by decide)
  · rcases hmem with h | h | h | h | h
    · exact absurd h (by decide)
    · exact hts (colors s) (by have := colors_le s hs; omega) h
    · exact absurd h (by decide)
    · exact absurd h (by decide)
    · exact absurd h (by decide)
  · rcases hmem with h | h | h | h
    · exact absurd h (by decide)
    · exact absurd h (by decide)
    · exact absurd h (by decide)
    · exact append_ne_of_head _ _ _ rfl rfl (by decide) h.symm
  · rcases hmem with h | h
    · exact absurd h (by decide)
    · exact hts s (by omega) h

/-! ## Pipeline helper lemmas -/

/-- When the dependency pre-check passes, the handler reduces to validation
followed by conversion (with the probe recorded for avif/heif targets). -/
theorem convert_eq_validate (env : Env) (tf : TargetFormat)
    (m : ConversionMode) (s : ℕ) (req : UploadReq) (td : String)
    (hdep : depOk env tf) :
    ∃ ps : Bool, convert_image_dynamic env tf m s req td
      = validateAndRun env tf m s req td ps := by
  by_cases htf : tf = TargetFormat.avif ∨ tf = TargetFormat.heif
  · obtain ⟨hpr, hha⟩ := hdep htf
    refine ⟨true, ?_⟩
    unfold convert_image_dynamic
    rw [if_pos htf]
    simp [hpr, hha]
  · refine ⟨false, ?_⟩
    unfold convert_image_dynamic
    rw [if_neg htf]

/-- Every trace of the execution phase is either an error trace or the
success trace. -/
theorem runConversion_shape (env : Env) (tf : TargetFormat)
    (m : ConversionMode) (s : ℕ) (req : UploadReq) (td : String) (ps : Bool) :
    (∃ sc st d, runConversion env tf m s req td ps = errTrace ps true sc st d)
    ∨ (∃ cmd p mt dn, runConversion env tf m s req td ps
        = { probeSpawned := ps, wsCreated := true, spawnedCmd := some cmd,
            killIssued := false, syncCleanup := false, deferredCleanup := true,
            response := Response.ok p mt dn }) := by
  unfold runConversion
  cases hst : env.stagingRaises
  · cases hsp : env.spawnRaises
    · cases heo : env.encOutcome with
      | timedOut => exact Or.inl ⟨_, _, _, rfl⟩
      | finished c st =>
        by_cases hc : c ≠ 0
        · simp only [if_pos hc]
          exact Or.inl ⟨_, _, _, rfl⟩
        · simp only [if_neg hc]
          cases hoe : env.outputExists
          · exact Or.inl ⟨_, _, _, rfl⟩
          · exact Or.inr ⟨_, _, _, _, rfl⟩
    · exact Or.inl ⟨_, _, _, rfl⟩
  · exact Or.inl ⟨_, _, _, rfl⟩

/-- Every trace of validation plus execution is either an error trace or
the success trace. -/
theorem validateAndRun_shape (env : Env) (tf : TargetFormat)
    (m : ConversionMode) (s : ℕ) (req : UploadReq) (td : String) (ps : Bool) :
    (∃ ws sc st d, validateAndRun env tf m s req td ps
        = errTrace ps ws sc st d)
    ∨ (∃ cmd p mt dn, validateAndRun env tf m s req td ps
        = { probeSpawned := ps, wsCreated := true, spawnedCmd := some cmd,
            killIssued := false, syncCleanup := false, deferredCleanup := true,
            response := Response.ok p mt dn }) := by
  unfold validateAndRun
  by_cases h1 : req.filename = ""
  · simp only [if_pos h1]
    exact Or.inl ⟨_, _, _, _, rfl⟩
  · simp only [if_neg h1]
    by_cases h2 : strLower (splitextExt req.filename) ∉ allowed_extensions
    · simp only [if_pos h2]
      exact Or.inl ⟨_, _, _, _, rfl⟩
    · simp only [if_neg h2]
      by_cases h3 : sizeLimitBytes < req.sizeBytes
      · simp only [if_pos h3]
        exact Or.inl ⟨_, _, _, _, rfl⟩
      · simp only [if_neg h3]
        rcases runConversion_shape env tf m s req td ps with
          ⟨sc, st, d, h⟩ | ⟨cmd, p, mt, dn, h⟩
        · exact Or.inl ⟨true, sc, st, d, h⟩
        · exact Or.inr ⟨cmd, p, mt, dn, h⟩

/-- Every trace of the handler is either an error trace (workspace deleted
synchronously by the `finally` block iff it was created) or the success
trace (deferred cleanup scheduled, no synchronous deletion). -/
theorem convert_shape (env : Env) (tf : TargetFormat) (m : ConversionMode)
    (s : ℕ) (req : UploadReq) (td : String) :
    (∃ ps ws sc st d, convert_image_dynamic env tf m s req td
        = errTrace ps ws sc st d)
    ∨ (∃ ps cmd p mt dn, convert_image_dynamic env tf m s req td
        = { probeSpawned := ps, wsCreated := true, spawnedCmd := some cmd,
            killIssued := false, syncCleanup := false, deferredCleanup := true,
            response := Response.ok p mt dn }) := by
  unfold convert_image_dynamic
  by_cases htf : tf = TargetFormat.avif ∨ tf = TargetFormat.heif
  · simp only [if_pos htf]
    cases hpr : env.probeRaises
    · cases hha : env.heifAvailable
      · exact Or.inl ⟨_, _, _, _, _, rfl⟩
      · rcases validateAndRun_shape env tf m s req td true with
          ⟨ws, sc, st, d, h⟩ | ⟨cmd, p, mt, dn, h⟩
        · exact Or.inl ⟨true, ws, sc, st, d, h⟩
        · exact Or.inr ⟨true, cmd, p, mt, dn, h⟩
    · exact Or.inl ⟨_, _, _, _, _, rfl⟩
  · simp only [if_neg htf]
    rcases validateAndRun_shape env tf m s req td false with
      ⟨ws, sc, st, d, h⟩ | ⟨cmd, p, mt, dn, h⟩
    · exact Or.inl ⟨false, ws, sc, st, d, h⟩
    · exact Or.inr ⟨false, cmd, p, mt, dn, h⟩

/-! ## Claim theorems -/

/-- C4 (amended): once the encoder process finishes, the conversion is
successful iff the exit code is 0 and the output file exists; a non-zero
exit answers HTTP 500 with the first 1000 characters of stderr in the
failure message, while a zero exit with missing output answers HTTP 500
with a fixed notice (no stderr excerpt). -/
theorem c4_success_iff (env : Env) (tf : TargetFormat) (m : ConversionMode)
    (s : ℕ) (req : UploadReq) (td : String) (c : ℕ) (st : String)
    (h : reachesExec env tf req)
    (henc : env.encOutcome = EncOutcome.finished c st) :
    ((convert_image_dynamic env tf m s req td).response.isOk = true
      ↔ (c = 0 ∧ env.outputExists = true))
    ∧ (c ≠ 0 → (convert_image_dynamic env tf m s req td).response
        = Response.err 500 ("Magick failed: " ++ takeChars 1000 st))
    ∧ (c = 0 → env.outputExists = false →
        (convert_image_dynamic env tf m s req td).response
          = Response.err 500 "Magick 命令成功执行，但未找到输出文件。") := by
  obtain ⟨hdep, hfn, hext, hsize, hstag, hspawn⟩ := h
  obtain ⟨ps, hcv⟩ := convert_eq_validate env tf m s req td hdep
  rw [hcv]
  unfold validateAndRun
  simp only [if_neg hfn, if_neg (not_not_intro hext),
    if_neg (Nat.not_lt.mpr hsize)]
  unfold runConversion
  simp only [hstag, hspawn, henc, Bool.false_eq_true, if_false]
  by_cases hc : c ≠ 0
  · simp only [if_pos hc]
    refine ⟨?_, fun _ => rfl, fun h0 => absurd h0 hc⟩
    constructor
    · intro hok
      exact absurd hok (by simp [errTrace, Response.isOk])
    · rintro ⟨h0, _⟩
      exact absurd h0 hc
  · simp only [if_neg hc]
    push_neg at hc
    cases hoe : env.outputExists
    · refine ⟨?_, fun hne => absurd hc hne, fun _ _ => rfl⟩
      constructor
      · intro hok
        exact absurd hok (by simp [errTrace, Response.isOk])
      · rintro ⟨_, hoe'⟩
        exact absurd hoe' (by simp)
    · refine ⟨?_, fun hne => absurd hc hne, fun _ h0 => absurd h0 (by simp)⟩
      constructor
      · intro _
        exact ⟨hc, rfl⟩
      · intro _
        rfl

/-- The environment of a request whose encoder exits 0 with non-empty
stderr but produces no output file. -/
def noOutputEnv : Env :=
  { heifAvailable := true, probeRaises := false, stagingRaises := false,
    spawnRaises := false,
    encOutcome := EncOutcome.finished 0 "diagnostic from encoder",
    outputExists := false, errText := "" }

/-- The trace of a jpeg/lossy/80 request under `noOutputEnv`. -/
def noOutputTrace : Trace :=
  convert_image_dynamic noOutputEnv TargetFormat.jpeg ConversionMode.lossy 80
    { filename := "photo.jpg", sizeBytes := 1000 } "TMP"

/-- C4, counterexample: with exit code 0, a missing output file and
non-empty stderr, the request answers HTTP 500 whose detail is a fixed
notice in which the stderr excerpt (`stderr[:1000]`) does not occur,
refuting the claim that the truncated diagnostic appears in the failure
message of both failure kinds. -/
theorem c4_no_stderr_counterexample :
    noOutputTrace.response
      = Response.err 500 "Magick 命令成功执行，但未找到输出文件。"
    ∧ takeChars 1000 "diagnostic from encoder" = "diagnostic from encoder"
    ∧ ¬ ("diagnostic from encoder".data
        <:+: "Magick 命令成功执行，但未找到输出文件。".data) :=
  ⟨rfl, rfl, by decide⟩

/-- The environment of a request whose encoder exits 2 with diagnostic
output, used to witness C4. -/
def failEnv : Env :=
  { heifAvailable := true, probeRaises := false, stagingRaises := false,
    spawnRaises := false, encOutcome := EncOutcome.finished 2 "boom",
    outputExists := true, errText := "" }

/-- Witness for C4 on a concrete failing request. -/
theorem c4_witness :
    reachesExec failEnv TargetFormat.jpeg { filename := "a.jpg", sizeBytes := 10 }
    ∧ failEnv.encOutcome = EncOutcome.finished 2 "boom"
    ∧ (((convert_image_dynamic failEnv TargetFormat.jpeg ConversionMode.lossy
          80 { filename := "a.jpg", sizeBytes := 10 } "T").response.isOk = true
        ↔ ((2 : ℕ) = 0 ∧ failEnv.outputExists = true))
      ∧ ((2 : ℕ) ≠ 0 → (convert_image_dynamic failEnv TargetFormat.jpeg
          ConversionMode.lossy 80 { filename := "a.jpg", sizeBytes := 10 }
          "T").response
          = Response.err 500 ("Magick failed: " ++ takeChars 1000 "boom"))
      ∧ ((2 : ℕ) = 0 → failEnv.outputExists = false →
          (convert_image_dynamic failEnv TargetFormat.jpeg
            ConversionMode.lossy 80 { filename := "a.jpg", sizeBytes := 10 }
            "T").response
          = Response.err 500 "Magick 命令成功执行，但未找到输出文件。")) :=
  ⟨by unfold reachesExec depOk; decide, rfl,
    c4_success_iff failEnv TargetFormat.jpeg ConversionMode.lossy 80
      { filename := "a.jpg", sizeBytes := 10 } "T" 2 "boom"
      (by unfold reachesExec depOk; decide) rfl⟩

/-- C3: whenever the handler created the workspace directory, it is
released exactly once: synchronous deletion by the `finally` block and the
deferred background deletion are mutually exclusive and one of them
happens, and the deferred variant (running only after the response body is
transmitted) is chosen exactly on the success path, while every error path
deletes synchronously before the error response is emitted. -/
theorem c3_workspace_released_once (env : Env) (tf : TargetFormat)
    (m : ConversionMode) (s : ℕ) (req : UploadReq) (td : String)
    (hws : (convert_image_dynamic env tf m s req td).wsCreated = true) :
    ((convert_image_dynamic env tf m s req td).syncCleanup
      = !(convert_image_dynamic env tf m s req td).deferredCleanup)
    ∧ ((convert_image_dynamic env tf m s req td).deferredCleanup
      = (convert_image_dynamic env tf m s req td).response.isOk) := by
  rcases convert_shape env tf m s req td with
    ⟨ps, ws, sc, st, d, h⟩ | ⟨ps, cmd, p, mt, dn, h⟩
  · rw [h] at hws ⊢
    unfold errTrace at hws ⊢
    simp_all [Response.isOk]
  · rw [h]
    simp [Response.isOk]

/-- The environment of a successful jpeg conversion, used to witness C3. -/
def successEnv : Env :=
  { heifAvailable := true, probeRaises := false, stagingRaises := false,
    spawnRaises := false, encOutcome := EncOutcome.finished 0 "",
    outputExists := true, errText := "" }

/-- Witness for C3 on a concrete successful request. -/
theorem c3_witness :
    (convert_image_dynamic successEnv TargetFormat.jpeg ConversionMode.lossy
      80 { filename := "a.jpg", sizeBytes := 10 } "TMP").wsCreated = true
    ∧ (((convert_image_dynamic successEnv TargetFormat.jpeg
          ConversionMode.lossy 80 { filename := "a.jpg", sizeBytes := 10 }
          "TMP").syncCleanup
        = !(convert_image_dynamic successEnv TargetFormat.jpeg
          ConversionMode.lossy 80 { filename := "a.jpg", sizeBytes := 10 }
          "TMP").deferredCleanup)
      ∧ ((convert_image_dynamic successEnv TargetFormat.jpeg
          ConversionMode.lossy 80 { filename := "a.jpg", sizeBytes := 10 }
          "TMP").deferredCleanup
        = (convert_image_dynamic successEnv TargetFormat.jpeg
          ConversionMode.lossy 80 { filename := "a.jpg", sizeBytes := 10 }
          "TMP").response.isOk)) :=
  ⟨by decide,
    c3_workspace_released_once successEnv TargetFormat.jpeg
      ConversionMode.lossy 80 { filename := "a.jpg", sizeBytes := 10 } "TMP"
      (by decide)⟩

/-- The environment of a request whose `magick` child process exceeds the
300-second timeout. -/
def timeoutEnv : Env :=
  { heifAvailable := true, probeRaises := false, stagingRaises := false,
    spawnRaises := false, encOutcome := EncOutcome.timedOut,
    outputExists := false, errText := "" }

/-- The trace of an avif/lossy/80 request on a 5 MB jpeg whose encoder
times out. -/
def timeoutTrace : Trace :=
  convert_image_dynamic timeoutEnv TargetFormat.avif ConversionMode.lossy 80
    { filename := "photo.jpg", sizeBytes := 5242880 } "TMP"

/-- C2: on timeout the request answers HTTP 504 (a category distinct from a
non-zero exit), the workspace is deleted synchronously, and an encoder
child process had been spawned — but the handler never issues a kill: the
source has no `process.kill()`/`terminate()` call, `asyncio.wait_for` only
cancels the `communicate()` await, so the child is left running, orphaned,
contrary to the claim. -/
theorem c2_timeout_no_kill :
    timeoutTrace.response
      = Response.err 504 "Conversion timed out after 300 seconds."
    ∧ timeoutTrace.wsCreated = true
    ∧ timeoutTrace.syncCleanup = true
    ∧ timeoutTrace.deferredCleanup = false
    ∧ timeoutTrace.spawnedCmd.isSome = true
    ∧ timeoutTrace.killIssued = false :=
  ⟨rfl, rfl, rfl, rfl, rfl, rfl⟩

/-- C1, counterexample: at `setting = 2` the code emits
`avif:cq-level=61` (Python `int` truncates `61.74`), while the claimed
formula `clamp(round(63*(1-setting/100)), 0, 63)` yields `62`. -/
theorem c1_round_counterexample :
    fmtFlags TargetFormat.avif ConversionMode.lossy 2 =
      ["-define", "avif:cq-level=61", "-define", "avif:speed=4"]
    ∧ cqClaim 2 = 62
    ∧ (cq_level 2 : ℤ) ≠ cqClaim 2 := by
  have h62 : cqClaim 2 = 62 := by
    unfold cqClaim
    have h1 : (63 : ℚ) * (1 - ((2 : ℕ) : ℚ) / 100) + 1 / 2
        = ((3112 : ℕ) : ℚ) / ((50 : ℕ) : ℚ) := by
      norm_num
    rw [round_eq, h1, floorQ_nat_div]
    decide
  refine ⟨rfl, h62, ?_⟩
  rw [h62]
  decide

/-- C1 (amended): for every validated request with `target_format=avif`,
`mode=lossy` and `setting ∈ [0,100]`, the translator emits
`-define avif:cq-level=c` with `c = clamp(floor(63*(1-setting/100)), 0, 63)`
(truncation, not rounding), followed by `-define avif:speed=4`;
`setting=100` yields cq-level 0 and `setting=0` yields cq-level 63. -/
theorem c1_avif_lossy_translation (s : ℕ) (hs : s ≤ 100) :
    fmtFlags TargetFormat.avif ConversionMode.lossy s =
      ["-define", "avif:cq-level=" ++ toString (cq_level s),
       "-define", "avif:speed=4"]
    ∧ (cq_level s : ℤ) = max 0 (min 63 ⌊(63 : ℚ) * (1 - (s : ℚ) / 100)⌋)
    ∧ cq_level 100 = 0 ∧ cq_level 0 = 63 := by
  refine ⟨rfl, ?_, by decide, by decide⟩
  have h1 : (63 : ℚ) * (1 - (s : ℚ) / 100)
      = ((63 * (100 - s) : ℕ) : ℚ) / ((100 : ℕ) : ℚ) := by
    push_cast [Nat.cast_sub hs]
    field_simp
    try ring
  rw [h1, floorQ_nat_div]
  unfold cq_level
  push_cast
  omega

/-- Witness for C1 at `setting = 40`. -/
theorem c1_witness :
    40 ≤ 100
    ∧ (fmtFlags TargetFormat.avif ConversionMode.lossy 40 =
        ["-define", "avif:cq-level=" ++ toString (cq_level 40),
         "-define", "avif:speed=4"]
      ∧ (cq_level 40 : ℤ) = max 0 (min 63 ⌊(63 : ℚ) * (1 - (40 : ℚ) / 100)⌋)
      ∧ cq_level 100 = 0 ∧ cq_level 0 = 63) :=
  ⟨by decide, by exact_mod_cast c1_avif_lossy_translation 40 (by decide)⟩

/-- C7: for `target_format=webp`, `mode=lossless` and every
`setting ∈ [0,100]`, the plan sets the lossless flag,
`webp:method = round(6 - (setting/100)*6)` (round half to even, Python's
`round`), and forces quality to 100; `setting=0` yields method 6 and
`setting=100` yields method 0. -/
theorem c7_webp_lossless_translation (s : ℕ) (hs : s ≤ 100) :
    fmtFlags TargetFormat.webp ConversionMode.lossless s =
      ["-define", "webp:lossless=true",
       "-define", "webp:method=" ++ toString (webp_method s),
       "-quality", "100"]
    ∧ (webp_method s : ℤ) = roundHalfEven ((6 : ℚ) - ((s : ℚ) / 100) * 6)
    ∧ webp_method 0 = 6 ∧ webp_method 100 = 0 := by
  refine ⟨rfl, ?_, by decide, by decide⟩
  have h1 : (6 : ℚ) - ((s : ℚ) / 100) * 6
      = ((600 - 6 * s : ℕ) : ℚ) / ((100 : ℕ) : ℚ) := by
    push_cast [Nat.cast_sub (by omega : 6 * s ≤ 600)]
    field_simp
    ring
  rw [h1]
  exact pyRoundNat_eq_roundHalfEven _ _ (by norm_num)

/-- Witness for C7 at `setting = 25` (a tie case: `4.5` rounds to `4`). -/
theorem c7_witness :
    25 ≤ 100
    ∧ (fmtFlags TargetFormat.webp ConversionMode.lossless 25 =
        ["-define", "webp:lossless=true",
         "-define", "webp:method=" ++ toString (webp_method 25),
         "-quality", "100"]
      ∧ (webp_method 25 : ℤ) = roundHalfEven ((6 : ℚ) - ((25 : ℚ) / 100) * 6)
      ∧ webp_method 0 = 6 ∧ webp_method 100 = 0) :=
  ⟨by decide, by exact_mod_cast c7_webp_lossless_translation 25 (by decide)⟩

/-- C8: for `target_format=png`, `mode=lossless` and every
`setting ∈ [0,100]`, the compression level is
`min(9, floor((100-setting)*0.09))` and the plan expresses it as the single
flag `-quality (91+level)`; level 0 maps to 91 and level 9 to 100. -/
theorem c8_png_lossless_translation (s : ℕ) (hs : s ≤ 100) :
    fmtFlags TargetFormat.png ConversionMode.lossless s =
      ["-quality", toString (91 + png_compression s)]
    ∧ (png_compression s : ℤ) = min 9 ⌊((100 : ℚ) - (s : ℚ)) * 0.09⌋
    ∧ 91 + png_compression 100 = 91 ∧ 91 + png_compression 0 = 100 := by
  refine ⟨rfl, ?_, by decide, by decide⟩
  have h0 : (0.09 : ℚ) = 9 / 100 := by norm_num
  have h1 : ((100 : ℚ) - (s : ℚ)) * 0.09
      = ((9 * (100 - s) : ℕ) : ℚ) / ((100 : ℕ) : ℚ) := by
    rw [h0]
    push_cast [Nat.cast_sub hs]
    field_simp
    ring
  rw [h1, floorQ_nat_div]
  unfold png_compression
  push_cast
  omega

/-- Witness for C8 at `setting = 50`. -/
theorem c8_witness :
    50 ≤ 100
    ∧ (fmtFlags TargetFormat.png ConversionMode.lossless 50 =
        ["-quality", toString (91 + png_compression 50)]
      ∧ (png_compression 50 : ℤ) = min 9 ⌊((100 : ℚ) - (50 : ℚ)) * 0.09⌋
      ∧ 91 + png_compression 100 = 91 ∧ 91 + png_compression 0 = 100) :=
  ⟨by decide, by exact_mod_cast c8_png_lossless_translation 50 (by decide)⟩

/-- C9: for `mode=lossy` with `target_format` png or gif and every
`setting ∈ [0,100]`, the plan quantizes to
`colors = max(2, floor(256*setting/100))` with dithering disabled
(`+dither`); `setting=100` yields 256 colors, `setting=0` yields 2, and
`colors` always stays in `[2,256]`; gif additionally applies
`-layers optimize`. -/
theorem c9_lossy_quantization_translation (s : ℕ) (hs : s ≤ 100) :
    fmtFlags TargetFormat.png ConversionMode.lossy s =
      ["-colors", toString (colors s), "+dither"]
    ∧ fmtFlags TargetFormat.gif ConversionMode.lossy s =
      ["-colors", toString (colors s), "+dither", "-layers", "optimize"]
    ∧ (colors s : ℤ) = max 2 ⌊(256 : ℚ) * (s : ℚ) / 100⌋
    ∧ 2 ≤ colors s ∧ colors s ≤ 256
    ∧ colors 100 = 256 ∧ colors 0 = 2 := by
  refine ⟨rfl, rfl, ?_, two_le_colors s, colors_le s hs, by decide, by decide⟩
  have h1 : (256 : ℚ) * (s : ℚ) / 100
      = ((256 * s : ℕ) : ℚ) / ((100 : ℕ) : ℚ) := by
    push_cast
    ring
  rw [h1, floorQ_nat_div]
  unfold colors
  push_cast
  omega

/-- Witness for C9 at `setting = 30`. -/
theorem c9_witness :
    30 ≤ 100
    ∧ (fmtFlags TargetFormat.png ConversionMode.lossy 30 =
        ["-colors", toString (colors 30), "+dither"]
      ∧ fmtFlags TargetFormat.gif ConversionMode.lossy 30 =
        ["-colors", toString (colors 30), "+dither", "-layers", "optimize"]
      ∧ (colors 30 : ℤ) = max 2 ⌊(256 : ℚ) * (30 : ℚ) / 100⌋
      ∧ 2 ≤ colors 30 ∧ colors 30 ≤ 256
      ∧ colors 100 = 256 ∧ colors 0 = 2) :=
  ⟨by decide, by exact_mod_cast c9_lossy_quantization_translation 30 (by decide)⟩

/-- C6: the `-coalesce` step appears in the argument plan if and only if the
lower-cased source extension is an animation-capable container
(`.gif`, `.webp`, `.apng`, `.png`) or the target format is gif or webp, and
when present it sits right after the input path, before the per-format
flags; it is never contributed by the per-format flags themselves. -/
theorem c6_coalesce_condition (input_path output_path file_extension : String)
    (tf : TargetFormat) (m : ConversionMode) (s : ℕ) (hs : s ≤ 100)
    (hip : input_path ≠ "-coalesce") (hop : output_path ≠ "-coalesce") :
    ("-coalesce" ∈ buildCmd input_path output_path file_extension tf m s
      ↔ (strLower file_extension ∈ animated_formats
          ∨ tf = TargetFormat.gif ∨ tf = TargetFormat.webp))
    ∧ buildCmd input_path output_path file_extension tf m s
      = ["magick", input_path]
        ++ (if coalesceNeeded file_extension tf then ["-coalesce"] else [])
        ++ fmtFlags tf m s ++ [output_path] := by
  refine ⟨?_, rfl⟩
  have hflags := coalesce_not_mem_fmtFlags tf m s hs
  have hmem : "-coalesce" ∈ buildCmd input_path output_path file_extension tf m s
      ↔ coalesceNeeded file_extension tf = true := by
    unfold buildCmd
    cases hB : coalesceNeeded file_extension tf
    · simp only [hB, Bool.false_eq_true, if_false, List.append_nil,
        List.cons_append, List.nil_append, List.mem_cons, List.mem_append,
        List.mem_singleton, List.not_mem_nil, or_false, false_or]
      constructor
      · rintro (h | h | h | h)
        · exact absurd h (by decide)
        · exact absurd h.symm hip
        · exact absurd h hflags
        · exact absurd h.symm hop
      · intro h
        exact absurd h (by decide)
    · simp [hB]
  rw [hmem]
  unfold coalesceNeeded
  simp only [Bool.or_eq_true, decide_eq_true_eq]
  tauto

/-- Witness for C6: a `.jpg` source converted to jpeg gets no coalescing
step. -/
theorem c6_witness :
    80 ≤ 100 ∧ ("i" : String) ≠ "-coalesce" ∧ ("o" : String) ≠ "-coalesce"
    ∧ (("-coalesce" ∈ buildCmd "i" "o" ".jpg" TargetFormat.jpeg
          ConversionMode.lossy 80
        ↔ (strLower ".jpg" ∈ animated_formats
            ∨ TargetFormat.jpeg = TargetFormat.gif
            ∨ TargetFormat.jpeg = TargetFormat.webp))
      ∧ buildCmd "i" "o" ".jpg" TargetFormat.jpeg ConversionMode.lossy 80
        = ["magick", "i"]
          ++ (if coalesceNeeded ".jpg" TargetFormat.jpeg then ["-coalesce"] else [])
          ++ fmtFlags TargetFormat.jpeg ConversionMode.lossy 80 ++ ["o"]) :=
  ⟨by decide, by decide, by decide,
    c6_coalesce_condition "i" "o" ".jpg" TargetFormat.jpeg
      ConversionMode.lossy 80 (by decide) (by decide) (by decide)⟩

/-- C5 (amended): a request that fails input validation (under a passing
dependency pre-check) is answered immediately with HTTP 400; no workspace
directory is created, no `magick` encoder process is spawned, and no
synchronous or deferred cleanup is needed.  (For avif/heif targets a
`which heif-enc` probe subprocess does run before validation — see the
counterexample.) -/
theorem c5_validation_rejects (env : Env) (tf : TargetFormat)
    (m : ConversionMode) (s : ℕ) (req : UploadReq) (td : String)
    (hdep : depOk env tf) (hv : validationFails req) :
    (∃ d, (convert_image_dynamic env tf m s req td).response
        = Response.err 400 d)
    ∧ (convert_image_dynamic env tf m s req td).wsCreated = false
    ∧ (convert_image_dynamic env tf m s req td).spawnedCmd = none
    ∧ (convert_image_dynamic env tf m s req td).syncCleanup = false
    ∧ (convert_image_dynamic env tf m s req td).deferredCleanup = false := by
  obtain ⟨ps, hcv⟩ := convert_eq_validate env tf m s req td hdep
  rw [hcv]
  unfold validateAndRun
  by_cases h1 : req.filename = ""
  · simp only [if_pos h1]
    exact ⟨⟨_, rfl⟩, rfl, rfl, rfl, rfl⟩
  · simp only [if_neg h1]
    by_cases h2 : strLower (splitextExt req.filename) ∉ allowed_extensions
    · simp only [if_pos h2]
      exact ⟨⟨_, rfl⟩, rfl, rfl, rfl, rfl⟩
    · simp only [if_neg h2]
      have h3 : sizeLimitBytes < req.sizeBytes := by
        rcases hv with h | h | h
        · exact absurd h h1
        · exact absurd h h2
        · exact h
      simp only [if_pos h3]
      exact ⟨⟨_, rfl⟩, rfl, rfl, rfl, rfl⟩

/-- The environment of a request with `heif-enc` present, used for the C5
counterexample and witness. -/
def probeEnv : Env :=
  { heifAvailable := true, probeRaises := false, stagingRaises := false,
    spawnRaises := false, encOutcome := EncOutcome.finished 0 "",
    outputExists := true, errText := "" }

/-- The trace of an avif request with a disallowed `.txt` extension. -/
def probeTrace : Trace :=
  convert_image_dynamic probeEnv TargetFormat.avif ConversionMode.lossy 80
    { filename := "notes.txt", sizeBytes := 1000 } "TMP"

/-- C5, counterexample: for an avif target, the dependency pre-check spawns
a `which heif-enc` subprocess before input validation runs, so an upload
with a disallowed extension is rejected with HTTP 400 only after an
external process has been spawned, refuting the claim that no external
process is spawned.  (No workspace is created and no encoder runs.) -/
theorem c5_probe_counterexample :
    probeTrace.probeSpawned = true
    ∧ probeTrace.response
      = Response.err 400 ("Unsupported file format: .txt. Allowed formats: "
          ++ ".jpg, .jpeg, .png, .gif, .webp, .avif, .heif, .heic, .bmp, "
          ++ ".tiff, .tif")
    ∧ probeTrace.wsCreated = false
    ∧ probeTrace.spawnedCmd = none := by
  refine ⟨rfl, ?_, rfl, rfl⟩
  decide

/-- Witness for C5 on a concrete invalid request (jpeg target, oversized
file). -/
theorem c5_witness :
    depOk probeEnv TargetFormat.jpeg
    ∧ validationFails { filename := "big.jpg", sizeBytes := 262144000 }
    ∧ ((∃ d, (convert_image_dynamic probeEnv TargetFormat.jpeg
          ConversionMode.lossy 80
          { filename := "big.jpg", sizeBytes := 262144000 } "TMP").response
          = Response.err 400 d)
      ∧ (convert_image_dynamic probeEnv TargetFormat.jpeg ConversionMode.lossy
          80 { filename := "big.jpg", sizeBytes := 262144000 } "TMP").wsCreated
          = false
      ∧ (convert_image_dynamic probeEnv TargetFormat.jpeg ConversionMode.lossy
          80 { filename := "big.jpg", sizeBytes := 262144000 } "TMP").spawnedCmd
          = none
      ∧ (convert_image_dynamic probeEnv TargetFormat.jpeg ConversionMode.lossy
          80 { filename := "big.jpg", sizeBytes := 262144000 } "TMP").syncCleanup
          = false
      ∧ (convert_image_dynamic probeEnv TargetFormat.jpeg ConversionMode.lossy
          80 { filename := "big.jpg", sizeBytes := 262144000 } "TMP").deferredCleanup
          = false) :=
  ⟨by unfold depOk; decide, by unfold validationFails; decide,
    c5_validation_rejects probeEnv TargetFormat.jpeg ConversionMode.lossy 80
      { filename := "big.jpg", sizeBytes := 262144000 } "TMP"
      (by unfold depOk; decide) (by unfold validationFails; decide)⟩

/-- C10: the accepted extensions are exactly the eleven listed ones, matched
case-insensitively on the extension of the submitted filename; an upload
with any other extension is rejected with HTTP 400 whose detail names the
offending extension, and an upload with an allowed extension is never
answered with the unsupported-format error. -/
theorem c10_extension_allowlist (env : Env) (tf : TargetFormat)
    (m : ConversionMode) (s : ℕ) (req : UploadReq) (td : String)
    (hdep : depOk env tf) (hfn : req.filename ≠ "") :
    allowed_extensions = [".jpg", ".jpeg", ".png", ".gif", ".webp", ".avif",
      ".heif", ".heic", ".bmp", ".tiff", ".tif"]
    ∧ (strLower (splitextExt req.filename) ∉ allowed_extensions →
        (convert_image_dynamic env tf m s req td).response
          = Response.err 400 ("Unsupported file format: "
              ++ strLower (splitextExt req.filename) ++ ". Allowed formats: "
              ++ String.intercalate ", " allowed_extensions))
    ∧ (strLower (splitextExt req.filename) ∈ allowed_extensions →
        ∀ d : String, (convert_image_dynamic env tf m s req td).response
          ≠ Response.err 400 ("Unsupported file format: " ++ d)) := by
  obtain ⟨ps, hcv⟩ := convert_eq_validate env tf m s req td hdep
  rw [hcv]
  refine ⟨rfl, ?_, ?_⟩
  · intro hext
    unfold validateAndRun
    simp only [if_neg hfn, if_pos hext]
    rfl
  · intro hext d hresp
    unfold validateAndRun at hresp
    simp only [if_neg hfn, if_neg (not_not_intro hext)] at hresp
    by_cases h3 : sizeLimitBytes < req.sizeBytes
    · simp only [if_pos h3] at hresp
      unfold errTrace at hresp
      simp only [Response.err.injEq] at hresp
      exact append_ne_of_head "Unsupported file format: " d
        "File too large. Max size is 200MB." rfl rfl (by decide)
        hresp.2.symm
    · simp only [if_neg h3] at hresp
      rcases runConversion_shape env tf m s req td ps with
        ⟨sc, st2, d2, h⟩ | ⟨cmd, p, mt, dn, h⟩
      · rw [h] at hresp
        unfold errTrace at hresp
        unfold runConversion at h
        simp only [Response.err.injEq] at hresp
        -- every execution-phase error has status 500 or 504, never 400
        rcases hst : env.stagingRaises with _ | _ <;> rw [hst] at h
        · rcases hsp : env.spawnRaises with _ | _ <;> rw [hsp] at h
          · rcases heo : env.encOutcome with ⟨c, st3⟩ | _ <;> rw [heo] at h
            · by_cases hc : c ≠ 0
              · simp only [if_pos hc] at h
                unfold errTrace at h
                simp_all
              · simp only [if_neg hc] at h
                cases hoe : env.outputExists <;> rw [hoe] at h
                · unfold errTrace at h
                  simp_all
                · unfold errTrace at h
                  simp_all
            · unfold errTrace at h
              simp_all
          · unfold errTrace at h
            simp_all
        · unfold errTrace at h
          simp_all
      · rw [h] at hresp
        exact absurd hresp (by simp)

/-- Witness for C10 on a concrete upload with a disallowed extension. -/
theorem c10_witness :
    depOk probeEnv TargetFormat.webp
    ∧ ("document.PDF" : String) ≠ ""
    ∧ (allowed_extensions = [".jpg", ".jpeg", ".png", ".gif", ".webp",
        ".avif", ".heif", ".heic", ".bmp", ".tiff", ".tif"]
      ∧ (strLower (splitextExt "document.PDF") ∉ allowed_extensions →
          (convert_image_dynamic probeEnv TargetFormat.webp
            ConversionMode.lossless 50
            { filename := "document.PDF", sizeBytes := 77 } "TMP").response
            = Response.err 400 ("Unsupported file format: "
                ++ strLower (splitextExt "document.PDF")
                ++ ". Allowed formats: "
                ++ String.intercalate ", " allowed_extensions))
      ∧ (strLower (splitextExt "document.PDF") ∈ allowed_extensions →
          ∀ d : String, (convert_image_dynamic probeEnv TargetFormat.webp
            ConversionMode.lossless 50
            { filename := "document.PDF", sizeBytes := 77 } "TMP").response
            ≠ Response.err 400 ("Unsupported file format: " ++ d))) :=
  ⟨by unfold depOk; decide, by decide,
    c10_extension_allowlist probeEnv TargetFormat.webp ConversionMode.lossless
      50 { filename := "document.PDF", sizeBytes := 77 } "TMP"
      (by unfold depOk; decide) (by decide)⟩

end MagickAPI
